import Mathlib

/-!
Shallow embedding of the `@Bind` method decorator
(`src/packages/bind/src/lib/{bind,delegators,investigators,workers,states,errors}.ts`).

The decorator replaces a method slot on a class prototype by a computed
accessor whose getter runs a resolution state machine on every access:
prototype access returns the original method, an existing own property is
returned unchanged, otherwise the method is bound to the instance and
installed as an own data property.

Modelling decisions:
* JavaScript reference identity of objects is modelled by an `id : Nat`
  carried on every object; `===` between objects compares ids.
* A callable is either an original (unbound) function or a bound function
  carrying its fixed receiver; `Function.prototype.bind` on an already
  bound function keeps the inner receiver, as in JavaScript.
* Exceptions are modelled with `Except`; `TypeError`, `BindingError` and
  `BindError` are the three error classes that occur in the source.
* Property-table mutation is modelled by state passing: the access
  functions return the (possibly updated) instance next to the result.
* `Object.defineProperty` throwing on a non-extensible object (frozen or
  sealed instance) is modelled by a `frozen` flag on objects; the thrown
  host error is a `TypeError`, as in JavaScript.
* Timestamps (`bindingTime`, `definitionTime`, `errorTime`) and the
  `previousState` audit back-references are omitted: no code path reads
  them to make a decision.
-/

namespace BindDecorator

/-- Object identity: JavaScript reference equality is identity of ids. -/
abbrev ObjId := Nat

/-- A JavaScript callable: an original function identified by its code, or a
bound function produced by `Function.prototype.bind` carrying the fixed
receiver. -/
inductive Callable where
  | orig (code : Nat)
  | bound (code : Nat) (ctx : ObjId)
deriving DecidableEq, Repr

/-- `Function.prototype.bind`: binding an original function fixes the
receiver; binding an already bound function keeps the inner receiver. -/
def Callable.bindTo : Callable → ObjId → Callable
  | .orig code, i => .bound code i
  | .bound code j, _ => .bound code j

/-- The receiver a call supplies: `undefined` (plain detached call) or an
object (`f.call(other)` / `f.apply(other)` / `other.f()`). -/
inductive Receiver where
  | undefined
  | obj (id : ObjId)
deriving DecidableEq, Repr

/-- The execution context (`this`) a call observes: a bound function ignores
the supplied receiver, an original function uses it. -/
def Callable.execContext : Callable → Receiver → Receiver
  | .orig _, r => r
  | .bound _ i, _ => .obj i

/-- A JavaScript value, as far as the decorator inspects values. -/
inductive JSValue where
  | undefined
  | num (n : Int)
  | str (s : String)
  | callable (c : Callable)
deriving DecidableEq, Repr

/-- `typeof v === "function"`. -/
def JSValue.isCallable : JSValue → Bool
  | .callable _ => true
  | _ => false

/-- An own-property descriptor (data property), as produced by
`DefinePropertyWorker.defineOnInstance`. -/
structure PropDescriptor where
  value : JSValue
  writable : Bool
  enumerable : Bool
  configurable : Bool
deriving DecidableEq, Repr

/-- A JavaScript object: its identity, its own-property table, whether it is
non-extensible (frozen/sealed), and whether `obj.constructor === Object`
(the condition tested by the eligibility guard). -/
structure JSObject where
  id : ObjId
  props : List (String × PropDescriptor)
  frozen : Bool
  ctorIsObject : Bool
deriving DecidableEq, Repr

/-- `Object.prototype.hasOwnProperty.call(o, name)`. -/
def JSObject.hasOwnProp (o : JSObject) (name : String) : Bool :=
  (o.props.lookup name).isSome

/-- Read an own property's value (`o[name]` when the own property exists). -/
def JSObject.getOwn (o : JSObject) (name : String) : JSValue :=
  match o.props.lookup name with
  | some d => d.value
  | none => .undefined

/-- Install or replace an own property (`Object.defineProperty` success
path). -/
def JSObject.defineOwn (o : JSObject) (name : String) (d : PropDescriptor) :
    JSObject :=
  { o with props := (name, d) :: o.props.filter (fun p => !(p.1 == name)) }

/-- The three error classes occurring in the source: the host `TypeError`
(validation failures and `Object.defineProperty` failures), the internal
`BindingError` (`errors.ts`), and the `BindError` the getter throws
(`bind.ts`). -/
inductive JSError where
  | typeError (msg : String)
  | bindingError (msg : String)
  | bindError (msg : String)
deriving DecidableEq, Repr

/-- `error instanceof BindingError`. -/
def JSError.isBindingError : JSError → Bool
  | .bindingError _ => true
  | _ => false

/-- `error instanceof BindError`. -/
def JSError.isBindError : JSError → Bool
  | .bindError _ => true
  | _ => false

/-- `error.message`. -/
def JSError.message : JSError → String
  | .typeError m => m
  | .bindingError m => m
  | .bindError m => m

/-- The validated initial binding state (`InitialBindingState` in
`states.ts`): after construction the method is known to be callable and
instance, method name and target are known to be present. `instance` is a
Lean keyword, so the field is named `inst`. -/
structure InitialBindingState where
  target : JSObject
  methodName : String
  method : Callable
  inst : JSObject
  enumerable : Bool
deriving DecidableEq, Repr

/-- The raw data handed to the `InitialBindingState` constructor before
validation: instance and target may be absent (`null`/`undefined`), the
method value may be any value. -/
structure BindingRequestData where
  target : Option JSObject
  methodName : String
  method : JSValue
  inst : Option JSObject
  enumerable : Bool
deriving DecidableEq, Repr

/-- The `InitialBindingState` constructor: `BaseBindingState` validates the
instance then the method name, then `InitialBindingState` validates the
target then the method, throwing `TypeError` in that order
(`states.ts`, `validateInstance` / `validateMethodName` /
`validateTarget` / `validateMethod`). An empty string is the only falsy
string, so `!methodName` is `methodName = ""`. -/
def InitialBindingState.construct (d : BindingRequestData) :
    Except JSError InitialBindingState :=
  match d.inst with
  | none => .error (.typeError "Instance must be provided")
  | some i =>
    if d.methodName = "" then
      .error (.typeError "Method name must be provided")
    else
      match d.target with
      | none => .error (.typeError "Target must be provided")
      | some t =>
        match d.method with
        | .callable c =>
          .ok { target := t, methodName := d.methodName, method := c,
                inst := i, enumerable := d.enumerable }
        | _ => .error (.typeError "Method must be a function")

namespace MethodBindingInvestigator

/-- `investigators.ts`: is this an access directly on the prototype?
(`state.instance === state.target`). -/
def isPrototypeAccess (s : InitialBindingState) : Bool :=
  s.inst.id == s.target.id

/-- `investigators.ts`: does this instance already have its own bound
version? (`Object.prototype.hasOwnProperty.call(instance, methodName)`). -/
def hasExistingBinding (s : InitialBindingState) : Bool :=
  s.inst.hasOwnProp s.methodName

/-- `investigators.ts`: should this method be bound?
(`!(state.target.constructor === Object)`). -/
def shouldBindToPrototype (s : InitialBindingState) : Bool :=
  !s.target.ctorIsObject

end MethodBindingInvestigator

namespace BindingError

/-- `errors.ts`: throw a `BindingError` when binding is not permitted for
this target. -/
def assertCanBind (s : InitialBindingState) : Except JSError Unit :=
  if !MethodBindingInvestigator.shouldBindToPrototype s then
    .error (.bindingError "Cannot bind: method should not bind to prototype")
  else
    .ok ()

end BindingError

/-- Which phase an error state attributes the failure to
(`failedOperation: 'bind' | 'define'` in `interfaces.ts`). -/
inductive BindPhase where
  | bind
  | define
deriving DecidableEq, Repr

/-- `BoundMethodState` (`states.ts`): the initial data plus the freshly
bound method. -/
structure BoundMethodState where
  target : JSObject
  methodName : String
  method : Callable
  inst : JSObject
  enumerable : Bool
  boundMethod : Callable
deriving DecidableEq, Repr

/-- The closed union `MethodProcessedState` (`states.ts`): the four terminal
outcomes of the resolution algorithm. -/
inductive MethodProcessedState where
  | prototypeMethod (method : Callable)
  | existingBind (boundMethod : JSValue)
  | definedProperty (boundMethod : Callable) (propertyDescriptor : PropDescriptor)
  | bindingError (error : String) (failedOperation : BindPhase)
deriving DecidableEq, Repr

namespace RetrieveOriginalMethodWorker

/-- `workers.ts`: prototype access returns the untouched original method. -/
def retrieveFromPrototype (s : InitialBindingState) : MethodProcessedState :=
  .prototypeMethod s.method

end RetrieveOriginalMethodWorker

namespace RetrieveExistingBindingWorker

/-- `workers.ts`: an existing binding is read back by the plain property
read `state.instance[state.methodName]`; this worker only runs when the
own property exists, where the read yields the own property's value. -/
def retrieveFromInstance (s : InitialBindingState) : MethodProcessedState :=
  .existingBind (s.inst.getOwn s.methodName)

end RetrieveExistingBindingWorker

namespace CreateMethodBindingWorker

/-- `workers.ts`: assert eligibility, then `state.method.bind(state.instance)`. -/
def bindToInstance (s : InitialBindingState) :
    Except JSError BoundMethodState :=
  match BindingError.assertCanBind s with
  | .error e => .error e
  | .ok _ =>
    .ok { target := s.target, methodName := s.methodName, method := s.method,
          inst := s.inst, enumerable := s.enumerable,
          boundMethod := s.method.bindTo s.inst.id }

end CreateMethodBindingWorker

namespace DefinePropertyWorker

/-- `workers.ts`: build the descriptor `{value, configurable: true,
writable: true, enumerable: state.enumerable}` and
`Object.defineProperty(state.instance, state.methodName, descriptor)`.
The host throws a `TypeError` when the instance is non-extensible
(frozen/sealed); on success the updated instance and the descriptor are
returned. -/
def defineOnInstance (b : BoundMethodState) :
    Except JSError (PropDescriptor × JSObject) :=
  let descriptor : PropDescriptor :=
    { value := .callable b.boundMethod, configurable := true,
      writable := true, enumerable := b.enumerable }
  if b.inst.frozen then
    .error (.typeError "Cannot define property, object is not extensible")
  else
    .ok (descriptor, b.inst.defineOwn b.methodName descriptor)

end DefinePropertyWorker

namespace ErrorTransitionWorker

/-- `workers.ts`: build a `BindingErrorState` from a message and the failed
phase. -/
def createErrorState (msg : String) (failedOperation : BindPhase) :
    MethodProcessedState :=
  .bindingError msg failedOperation

end ErrorTransitionWorker

namespace MethodBindingDelegator

/-- The body of the `try` block of `MethodBindingDelegator.process`
(`delegators.ts`): prototype check, existing-binding check, then bind and
define. Returns the outcome and the (possibly updated) instance. -/
def tryProcess (s : InitialBindingState) :
    Except JSError (MethodProcessedState × JSObject) :=
  if MethodBindingInvestigator.isPrototypeAccess s then
    .ok (RetrieveOriginalMethodWorker.retrieveFromPrototype s, s.inst)
  else if MethodBindingInvestigator.hasExistingBinding s then
    .ok (RetrieveExistingBindingWorker.retrieveFromInstance s, s.inst)
  else
    match CreateMethodBindingWorker.bindToInstance s with
    | .error e => .error e
    | .ok b =>
      match DefinePropertyWorker.defineOnInstance b with
      | .error e => .error e
      | .ok (descriptor, inst2) =>
        .ok (.definedProperty b.boundMethod descriptor, inst2)

/-- `MethodBindingDelegator.process` (`delegators.ts`): run the `try`
block; the `catch` converts a `BindingError` into a `BindingErrorState`
whose `failedOperation` is the literal `'bind'`, and re-throws every
other error unchanged. The instance is unchanged on every error path. -/
def process (s : InitialBindingState) :
    Except JSError MethodProcessedState × JSObject :=
  match tryProcess s with
  | .ok (r, inst2) => (.ok r, inst2)
  | .error e =>
    if e.isBindingError then
      (.ok (ErrorTransitionWorker.createErrorState e.message BindPhase.bind),
       s.inst)
    else
      (.error e, s.inst)

end MethodBindingDelegator

/-- The original property descriptor of the decorated method declaration:
its `value` (the method) and its `enumerable` flag, which may be absent
(`descriptor.enumerable ?? false` in `bind.ts`). -/
structure OrigDescriptor where
  value : JSValue
  enumerable : Option Bool
deriving DecidableEq, Repr

namespace Bind

/-- The getter installed by `Bind()` (`bind.ts`): construct an
`InitialBindingState` from the decoration data and `this`, run the
delegator, and pattern-match the four outcomes; a `BindingErrorState` is
re-thrown as a `BindError` wrapping the state's message. The updated
instance is returned next to the result. -/
def getter (target : JSObject) (propertyKey : String)
    (descriptor : OrigDescriptor) (this_ : JSObject) :
    Except JSError JSValue × JSObject :=
  match InitialBindingState.construct
      { target := some target, methodName := propertyKey,
        method := descriptor.value, inst := some this_,
        enumerable := descriptor.enumerable.getD false } with
  | .error e => (.error e, this_)
  | .ok s =>
    match MethodBindingDelegator.process s with
    | (.ok r, inst2) =>
      match r with
      | .prototypeMethod m => (.ok (.callable m), inst2)
      | .existingBind v => (.ok v, inst2)
      | .definedProperty bm _ => (.ok (.callable bm), inst2)
      | .bindingError msg _ => (.error (.bindError msg), inst2)
    | (.error e, inst2) => (.error e, inst2)

end Bind

/-- The accessor descriptor `Bind()` substitutes for the method slot
(`bind.ts`): `configurable: true`, `enumerable` copied from the original
declaration, and the resolving getter. -/
structure AccessorDescriptor where
  configurable : Bool
  enumerable : Option Bool
  get : JSObject → Except JSError JSValue × JSObject

/-- The decorator body `Bind()(target, propertyKey, descriptor)`
(`bind.ts`). -/
def Bind (target : JSObject) (propertyKey : String)
    (descriptor : OrigDescriptor) : AccessorDescriptor :=
  { configurable := true
    enumerable := descriptor.enumerable
    get := Bind.getter target propertyKey descriptor }

/-- A plain property read `instance.method` after decoration: an own data
property (installed by a previous access or written externally) shadows
the prototype accessor; otherwise the accessor's getter fires with the
instance as `this`. -/
def readProperty (target : JSObject) (propertyKey : String)
    (descriptor : OrigDescriptor) (i : JSObject) :
    Except JSError JSValue × JSObject :=
  match i.props.lookup propertyKey with
  | some d => (.ok d.value, i)
  | none => (Bind target propertyKey descriptor).get i

/-- `n` further property reads after a first one, threading the instance. -/
def repeatRead (target : JSObject) (propertyKey : String)
    (descriptor : OrigDescriptor) : Nat → JSObject →
    Except JSError JSValue × JSObject
  | 0, i => readProperty target propertyKey descriptor i
  | n + 1, i =>
    repeatRead target propertyKey descriptor n
      (readProperty target propertyKey descriptor i).2

/-- How many of `n` successive property reads mutate the instance's own
property table. -/
def countWrites (target : JSObject) (propertyKey : String)
    (descriptor : OrigDescriptor) : Nat → JSObject → Nat
  | 0, _ => 0
  | n + 1, i =>
    let i2 := (readProperty target propertyKey descriptor i).2
    (if i2 = i then 0 else 1) + countWrites target propertyKey descriptor n i2


/-! ### Branch lemmas: the getter evaluated under each decision path -/

theorem Bind_get_eq (t : JSObject) (k : String) (d : OrigDescriptor)
    (i : JSObject) : (Bind t k d).get i = Bind.getter t k d i := rfl

theorem getter_badname (t : JSObject) (k : String) (d : OrigDescriptor)
    (i : JSObject) (hk : k = "") :
    Bind.getter t k d i = (.error (.typeError "Method name must be provided"), i) := by
  simp [Bind.getter, InitialBindingState.construct, hk]

theorem getter_badmethod (t : JSObject) (k : String) (d : OrigDescriptor)
    (i : JSObject) (hk : ¬k = "") (hv : d.value.isCallable = false) :
    Bind.getter t k d i = (.error (.typeError "Method must be a function"), i) := by
  cases hdv : d.value <;>
    simp_all [Bind.getter, InitialBindingState.construct, JSValue.isCallable]

theorem getter_proto (t : JSObject) (k : String) (d : OrigDescriptor)
    (i : JSObject) (c : Callable) (hk : ¬k = "") (hv : d.value = .callable c)
    (hid : (i.id == t.id) = true) :
    Bind.getter t k d i = (.ok (.callable c), i) := by
  simp [Bind.getter, InitialBindingState.construct, hk, hv,
    MethodBindingDelegator.process, MethodBindingDelegator.tryProcess,
    MethodBindingInvestigator.isPrototypeAccess, hid,
    RetrieveOriginalMethodWorker.retrieveFromPrototype]

theorem getter_existing (t : JSObject) (k : String) (d : OrigDescriptor)
    (i : JSObject) (c : Callable) (p : PropDescriptor)
    (hk : ¬k = "") (hv : d.value = .callable c)
    (hid : (i.id == t.id) = false) (hp : i.props.lookup k = some p) :
    Bind.getter t k d i = (.ok p.value, i) := by
  simp [Bind.getter, InitialBindingState.construct, hk, hv,
    MethodBindingDelegator.process, MethodBindingDelegator.tryProcess,
    MethodBindingInvestigator.isPrototypeAccess, hid,
    MethodBindingInvestigator.hasExistingBinding, JSObject.hasOwnProp, hp,
    RetrieveExistingBindingWorker.retrieveFromInstance, JSObject.getOwn]

theorem getter_reject (t : JSObject) (k : String) (d : OrigDescriptor)
    (i : JSObject) (c : Callable)
    (hk : ¬k = "") (hv : d.value = .callable c)
    (hid : (i.id == t.id) = false) (hp : i.props.lookup k = none)
    (hctor : t.ctorIsObject = true) :
    Bind.getter t k d i =
      (.error (.bindError "Cannot bind: method should not bind to prototype"), i) := by
  simp [Bind.getter, InitialBindingState.construct, hk, hv,
    MethodBindingDelegator.process, MethodBindingDelegator.tryProcess,
    MethodBindingInvestigator.isPrototypeAccess, hid,
    MethodBindingInvestigator.hasExistingBinding, JSObject.hasOwnProp, hp,
    CreateMethodBindingWorker.bindToInstance, BindingError.assertCanBind,
    MethodBindingInvestigator.shouldBindToPrototype, hctor,
    JSError.isBindingError, JSError.message,
    ErrorTransitionWorker.createErrorState]

theorem getter_frozen (t : JSObject) (k : String) (d : OrigDescriptor)
    (i : JSObject) (c : Callable)
    (hk : ¬k = "") (hv : d.value = .callable c)
    (hid : (i.id == t.id) = false) (hp : i.props.lookup k = none)
    (hctor : t.ctorIsObject = false) (hfz : i.frozen = true) :
    Bind.getter t k d i =
      (.error (.typeError "Cannot define property, object is not extensible"), i) := by
  simp [Bind.getter, InitialBindingState.construct, hk, hv,
    MethodBindingDelegator.process, MethodBindingDelegator.tryProcess,
    MethodBindingInvestigator.isPrototypeAccess, hid,
    MethodBindingInvestigator.hasExistingBinding, JSObject.hasOwnProp, hp,
    CreateMethodBindingWorker.bindToInstance, BindingError.assertCanBind,
    MethodBindingInvestigator.shouldBindToPrototype, hctor,
    DefinePropertyWorker.defineOnInstance, hfz, JSError.isBindingError]

theorem getter_define (t : JSObject) (k : String) (d : OrigDescriptor)
    (i : JSObject) (c : Callable)
    (hk : ¬k = "") (hv : d.value = .callable c)
    (hid : (i.id == t.id) = false) (hp : i.props.lookup k = none)
    (hctor : t.ctorIsObject = false) (hfz : i.frozen = false) :
    Bind.getter t k d i =
      (.ok (.callable (c.bindTo i.id)),
       i.defineOwn k
         { value := .callable (c.bindTo i.id), writable := true,
           enumerable := d.enumerable.getD false, configurable := true }) := by
  simp [Bind.getter, InitialBindingState.construct, hk, hv,
    MethodBindingDelegator.process, MethodBindingDelegator.tryProcess,
    MethodBindingInvestigator.isPrototypeAccess, hid,
    MethodBindingInvestigator.hasExistingBinding, JSObject.hasOwnProp, hp,
    CreateMethodBindingWorker.bindToInstance, BindingError.assertCanBind,
    MethodBindingInvestigator.shouldBindToPrototype, hctor,
    DefinePropertyWorker.defineOnInstance, hfz]

/-- `Object.defineProperty` leaves the new descriptor as the own property. -/
theorem defineOwn_lookup (o : JSObject) (name : String) (d : PropDescriptor) :
    (o.defineOwn name d).props.lookup name = some d := by
  simp [JSObject.defineOwn, List.lookup]

/-- Every error path of the getter leaves the instance unchanged. -/
theorem getter_error_snd (t : JSObject) (k : String) (d : OrigDescriptor)
    (i : JSObject) (e : JSError)
    (h : (Bind.getter t k d i).1 = .error e) :
    (Bind.getter t k d i).2 = i := by
  by_cases hk : k = ""
  · rw [getter_badname t k d i hk]
  · cases hdv : d.value with
    | callable c =>
      cases hid : i.id == t.id with
      | true => rw [getter_proto t k d i c hk hdv hid]
      | false =>
        cases hp : i.props.lookup k with
        | some p => rw [getter_existing t k d i c p hk hdv hid hp]
        | none =>
          cases hctor : t.ctorIsObject with
          | true => rw [getter_reject t k d i c hk hdv hid hp hctor]
          | false =>
            cases hfz : i.frozen with
            | true => rw [getter_frozen t k d i c hk hdv hid hp hctor hfz]
            | false =>
              rw [getter_define t k d i c hk hdv hid hp hctor hfz] at h
              simp at h
    | undefined =>
      rw [getter_badmethod t k d i hk (by simp [hdv, JSValue.isCallable])]
    | num n =>
      rw [getter_badmethod t k d i hk (by simp [hdv, JSValue.isCallable])]
    | str s =>
      rw [getter_badmethod t k d i hk (by simp [hdv, JSValue.isCallable])]

/-- A plain read finding an own property returns its value, untouched. -/
theorem readProperty_own (t : JSObject) (k : String) (d : OrigDescriptor)
    (i : JSObject) (p : PropDescriptor) (hp : i.props.lookup k = some p) :
    readProperty t k d i = (.ok p.value, i) := by
  simp [readProperty, hp]

/-- Without an own property, a plain read fires the installed getter. -/
theorem readProperty_getter (t : JSObject) (k : String) (d : OrigDescriptor)
    (i : JSObject) (hp : i.props.lookup k = none) :
    readProperty t k d i = Bind.getter t k d i := by
  simp [readProperty, hp, Bind]

/-- A successful read reaches a stable point: reading again off the updated
instance yields the same value and leaves the instance unchanged. -/
theorem readProperty_stable (t : JSObject) (k : String) (d : OrigDescriptor)
    (i i2 : JSObject) (v : JSValue)
    (h : readProperty t k d i = (.ok v, i2)) :
    readProperty t k d i2 = (.ok v, i2) := by
  cases hp : i.props.lookup k with
  | some p =>
    rw [readProperty_own t k d i p hp] at h
    injection h with h1 h2
    injection h1 with h1
    subst h2
    subst h1
    exact readProperty_own t k d i p hp
  | none =>
    rw [readProperty_getter t k d i hp] at h
    by_cases hk : k = ""
    · rw [getter_badname t k d i hk] at h
      simp at h
    · cases hdv : d.value with
      | callable c =>
        cases hid : i.id == t.id with
        | true =>
          rw [getter_proto t k d i c hk hdv hid] at h
          injection h with h1 h2
          injection h1 with h1
          subst h2
          subst h1
          rw [readProperty_getter t k d i hp]
          exact getter_proto t k d i c hk hdv hid
        | false =>
          cases hctor : t.ctorIsObject with
          | true =>
            rw [getter_reject t k d i c hk hdv hid hp hctor] at h
            simp at h
          | false =>
            cases hfz : i.frozen with
            | true =>
              rw [getter_frozen t k d i c hk hdv hid hp hctor hfz] at h
              simp at h
            | false =>
              rw [getter_define t k d i c hk hdv hid hp hctor hfz] at h
              injection h with h1 h2
              injection h1 with h1
              subst h2
              subst h1
              rw [readProperty_own t k d _ _ (defineOwn_lookup i k _)]
      | undefined =>
        rw [getter_badmethod t k d i hk (by simp [hdv, JSValue.isCallable])] at h
        simp at h
      | num n =>
        rw [getter_badmethod t k d i hk (by simp [hdv, JSValue.isCallable])] at h
        simp at h
      | str s =>
        rw [getter_badmethod t k d i hk (by simp [hdv, JSValue.isCallable])] at h
        simp at h

/-- Each read either leaves the instance unchanged or installs the own
property under the method name. -/
theorem readProperty_snd_own (t : JSObject) (k : String) (d : OrigDescriptor)
    (i : JSObject) :
    (readProperty t k d i).2 = i ∨
      (((readProperty t k d i).2).props.lookup k).isSome := by
  cases hp : i.props.lookup k with
  | some p => rw [readProperty_own t k d i p hp]; left; rfl
  | none =>
    rw [readProperty_getter t k d i hp]
    by_cases hk : k = ""
    · rw [getter_badname t k d i hk]; left; rfl
    · cases hdv : d.value with
      | callable c =>
        cases hid : i.id == t.id with
        | true => rw [getter_proto t k d i c hk hdv hid]; left; rfl
        | false =>
          cases hctor : t.ctorIsObject with
          | true => rw [getter_reject t k d i c hk hdv hid hp hctor]; left; rfl
          | false =>
            cases hfz : i.frozen with
            | true =>
              rw [getter_frozen t k d i c hk hdv hid hp hctor hfz]; left; rfl
            | false =>
              rw [getter_define t k d i c hk hdv hid hp hctor hfz]
              right
              rw [defineOwn_lookup]
              rfl
      | undefined =>
        rw [getter_badmethod t k d i hk (by simp [hdv, JSValue.isCallable])]
        left; rfl
      | num n =>
        rw [getter_badmethod t k d i hk (by simp [hdv, JSValue.isCallable])]
        left; rfl
      | str s =>
        rw [getter_badmethod t k d i hk (by simp [hdv, JSValue.isCallable])]
        left; rfl

/-- Once the own property exists, no further read ever writes. -/
theorem countWrites_zero_of_own (t : JSObject) (k : String)
    (d : OrigDescriptor) :
    ∀ n i, (i.props.lookup k).isSome → countWrites t k d n i = 0 := by
  intro n
  induction n with
  | zero => intro i _; rfl
  | succ n ih =>
    intro i hi
    obtain ⟨p, hp⟩ := Option.isSome_iff_exists.mp hi
    simp only [countWrites, readProperty_own t k d i p hp]
    simpa using ih i hi

/-- The try block never yields an error state: error states only come out
of the catch. -/
theorem tryProcess_not_bindingError (s : InitialBindingState) (msg : String)
    (op : BindPhase) (i2 : JSObject) :
    MethodBindingDelegator.tryProcess s ≠ .ok (.bindingError msg op, i2) := by
  unfold MethodBindingDelegator.tryProcess
  split
  · simp [RetrieveOriginalMethodWorker.retrieveFromPrototype]
  · split
    · simp [RetrieveExistingBindingWorker.retrieveFromInstance]
    · split
      · simp
      · split
        · simp
        · simp

/-- Every error state the delegator produces reports the `bind` phase: the
catch clause hard-codes it, and the try block produces none. -/
theorem process_error_state_phase (s : InitialBindingState) (msg : String)
    (op : BindPhase)
    (h : (MethodBindingDelegator.process s).1 = .ok (.bindingError msg op)) :
    op = BindPhase.bind := by
  unfold MethodBindingDelegator.process at h
  split at h
  case h_1 r i2 heq =>
    simp only at h
    cases h
    exact absurd heq (tryProcess_not_bindingError s msg op i2)
  case h_2 e heq =>
    split at h
    · simp only [ErrorTransitionWorker.createErrorState] at h
      cases h
      rfl
    · simp at h

/-- An error escaping the delegator is never the internal `BindingError`:
the catch converts exactly those into error states. -/
theorem process_escaped_error_raw (s : InitialBindingState) (e2 : JSError)
    (h : (MethodBindingDelegator.process s).1 = .error e2) :
    e2.isBindingError = false := by
  unfold MethodBindingDelegator.process at h
  split at h
  · simp at h
  case h_2 e heq =>
    split at h
    · simp at h
    case isFalse hb =>
      simp only at h
      cases h
      simpa using hb

/-! ### Claim theorems -/

/-- C1: for an instance with a decorated method, the first access yields a
detached function whose execution context is permanently the instance:
direct invocation, `f.call(other)` and `f.apply(other)` (any supplied
receiver) all observe the instance's context, never another one. -/
theorem bound_method_context_permanence (t i : JSObject) (k : String)
    (code : Nat) (e : Option Bool)
    (hk : ¬k = "") (hid : (i.id == t.id) = false)
    (hp : i.props.lookup k = none)
    (hctor : t.ctorIsObject = false) (hfz : i.frozen = false) :
    ∃ f : Callable,
      ((Bind t k ⟨.callable (.orig code), e⟩).get i).1 = .ok (.callable f) ∧
        ∀ r : Receiver, f.execContext r = .obj i.id := by
  refine ⟨(Callable.orig code).bindTo i.id, ?_, ?_⟩
  · rw [Bind_get_eq, getter_define t k _ i (.orig code) hk rfl hid hp hctor hfz]
  · intro r; rfl

/-- C1 witness. -/
theorem bound_method_context_permanence_witness :
    ∃ f : Callable,
      ((Bind ⟨0, [], false, false⟩ "m" ⟨.callable (.orig 7), some false⟩).get
          ⟨1, [], false, false⟩).1 = .ok (.callable f) ∧
        ∀ r : Receiver, f.execContext r = .obj 1 :=
  bound_method_context_permanence ⟨0, [], false, false⟩ ⟨1, [], false, false⟩
    "m" 7 (some false) (by decide) (by decide) rfl rfl rfl

/-- C2: identity stability — once a read of the decorated method succeeds,
every further read, any number of times, returns the identical function
reference and leaves the instance unchanged. -/
theorem repeated_access_identity_stability (t : JSObject) (k : String)
    (d : OrigDescriptor) (i i1 : JSObject) (v : JSValue)
    (h : readProperty t k d i = (.ok v, i1)) :
    ∀ n, repeatRead t k d n i1 = (.ok v, i1) := by
  intro n
  induction n with
  | zero => exact readProperty_stable t k d i i1 v h
  | succ n ih =>
    have hs := readProperty_stable t k d i i1 v h
    simp only [repeatRead, hs]
    exact ih

/-- C2 witness: five further reads after the first all return the same
bound-function reference. -/
theorem repeated_access_identity_stability_witness :
    repeatRead ⟨0, [], false, false⟩ "m" ⟨.callable (.orig 7), some false⟩ 5
        ⟨1, [("m", ⟨.callable (.bound 7 1), true, false, true⟩)], false, false⟩ =
      (.ok (.callable (.bound 7 1)),
       ⟨1, [("m", ⟨.callable (.bound 7 1), true, false, true⟩)], false, false⟩) :=
  repeated_access_identity_stability ⟨0, [], false, false⟩ "m"
    ⟨.callable (.orig 7), some false⟩ ⟨1, [], false, false⟩ _ _ rfl 5

/-- C3: prototype purity — an access whose receiver is the defining object
itself returns the untouched original function and mutates no own
property of the defining object. -/
theorem prototype_access_returns_original (t : JSObject) (k : String)
    (c : Callable) (e : Option Bool) (hk : ¬k = "") :
    (Bind t k ⟨.callable c, e⟩).get t = (.ok (.callable c), t) := by
  rw [Bind_get_eq]
  exact getter_proto t k _ t c hk rfl (by simp)

/-- C3 witness. -/
theorem prototype_access_returns_original_witness :
    (Bind ⟨0, [], false, false⟩ "m" ⟨.callable (.orig 7), some false⟩).get
        ⟨0, [], false, false⟩ =
      (.ok (.callable (.orig 7)), ⟨0, [], false, false⟩) :=
  prototype_access_returns_original ⟨0, [], false, false⟩ "m" (.orig 7)
    (some false) (by decide)

/-- C4: descriptor fidelity — after the first successful access the
instance's own descriptor for the method name is configurable, writable,
and its enumerable flag equals the original declaration's flag. -/
theorem first_access_descriptor_fidelity (t i : JSObject) (k : String)
    (c : Callable) (b : Bool)
    (hk : ¬k = "") (hid : (i.id == t.id) = false)
    (hp : i.props.lookup k = none)
    (hctor : t.ctorIsObject = false) (hfz : i.frozen = false) :
    ∃ p : PropDescriptor,
      (((Bind t k ⟨.callable c, some b⟩).get i).2).props.lookup k = some p ∧
        p.configurable = true ∧ p.writable = true ∧ p.enumerable = b := by
  refine ⟨⟨.callable (c.bindTo i.id), true, b, true⟩, ?_, rfl, rfl, rfl⟩
  rw [Bind_get_eq, getter_define t k _ i c hk rfl hid hp hctor hfz]
  exact defineOwn_lookup i k _

/-- C4 witness (original declaration non-enumerable, the method default). -/
theorem first_access_descriptor_fidelity_witness :
    ∃ p : PropDescriptor,
      (((Bind ⟨0, [], false, false⟩ "m" ⟨.callable (.orig 7), some false⟩).get
            ⟨1, [], false, false⟩).2).props.lookup "m" = some p ∧
        p.configurable = true ∧ p.writable = true ∧ p.enumerable = false :=
  first_access_descriptor_fidelity ⟨0, [], false, false⟩ ⟨1, [], false, false⟩
    "m" (.orig 7) false (by decide) (by decide) rfl rfl rfl

/-- C5: write-once invariant — over any number of successive reads of the
decorated method, the instance's own property table is mutated at most
once. -/
theorem property_table_write_once (t : JSObject) (k : String)
    (d : OrigDescriptor) : ∀ n i, countWrites t k d n i ≤ 1 := by
  intro n
  induction n with
  | zero => intro i; exact Nat.zero_le 1
  | succ n ih =>
    intro i
    simp only [countWrites]
    by_cases heq : (readProperty t k d i).2 = i
    · rw [if_pos heq, heq]
      simpa using ih i
    · rw [if_neg heq]
      rcases readProperty_snd_own t k d i with h | h
      · exact absurd h heq
      · rw [countWrites_zero_of_own t k d n _ h]

/-- C10: the existing-binding check tests only own-property presence, so
whatever own value the property table holds under the method name —
including a non-callable value written there by external code — is
returned unchanged, with no re-bind and no re-define. -/
theorem existing_own_value_returned (t i : JSObject) (k : String)
    (c : Callable) (e : Option Bool) (p : PropDescriptor)
    (hk : ¬k = "") (hid : (i.id == t.id) = false)
    (hp : i.props.lookup k = some p) :
    (Bind t k ⟨.callable c, e⟩).get i = (.ok p.value, i) := by
  rw [Bind_get_eq]
  exact getter_existing t k _ i c p hk rfl hid hp

/-- C10 witness: an externally written non-callable own value is returned
unchanged. -/
theorem existing_own_value_returned_witness :
    (Bind ⟨0, [], false, false⟩ "m" ⟨.callable (.orig 7), some false⟩).get
        ⟨1, [("m", ⟨.num 42, true, false, true⟩)], false, false⟩ =
      (.ok (.num 42),
       ⟨1, [("m", ⟨.num 42, true, false, true⟩)], false, false⟩) :=
  existing_own_value_returned ⟨0, [], false, false⟩
    ⟨1, [("m", ⟨.num 42, true, false, true⟩)], false, false⟩ "m" (.orig 7)
    (some false) ⟨.num 42, true, false, true⟩ (by decide) (by decide) rfl

/-- C6: a failed binding attempt surfaces synchronously as a thrown error,
the instance gains no own property (its state is unchanged), and the
next access re-runs the identical full resolution from the initial
state. -/
theorem failed_access_leaves_state_unchanged (t : JSObject) (k : String)
    (d : OrigDescriptor) (i : JSObject) (e : JSError)
    (h : ((Bind t k d).get i).1 = .error e) :
    ((Bind t k d).get i).2 = i ∧
      (Bind t k d).get (((Bind t k d).get i).2) = (Bind t k d).get i := by
  have hsnd : ((Bind t k d).get i).2 = i := getter_error_snd t k d i e h
  exact ⟨hsnd, by rw [hsnd]⟩

/-- C6 witness: an ineligible target makes the access throw; the instance
is unchanged and the next access restarts identically. -/
theorem failed_access_leaves_state_unchanged_witness :
    ((Bind ⟨0, [], false, true⟩ "m" ⟨.callable (.orig 7), some false⟩).get
        ⟨1, [], false, false⟩).2 = ⟨1, [], false, false⟩ ∧
      (Bind ⟨0, [], false, true⟩ "m" ⟨.callable (.orig 7), some false⟩).get
          (((Bind ⟨0, [], false, true⟩ "m"
              ⟨.callable (.orig 7), some false⟩).get
            ⟨1, [], false, false⟩).2) =
        (Bind ⟨0, [], false, true⟩ "m" ⟨.callable (.orig 7), some false⟩).get
          ⟨1, [], false, false⟩ :=
  failed_access_leaves_state_unchanged ⟨0, [], false, true⟩ "m"
    ⟨.callable (.orig 7), some false⟩ ⟨1, [], false, false⟩
    (.bindError "Cannot bind: method should not bind to prototype") rfl

/-- C7 counterexample: with an eligible target and a frozen instance the
define step fails, and what escapes the getter is the raw host
`TypeError`, not the dedicated error type; so not every definition
failure propagates as the dedicated type, and no error state reports a
`define` phase. -/
theorem define_failure_escapes_raw :
    (Bind ⟨0, [], false, false⟩ "m" ⟨.callable (.orig 7), some false⟩).get
        ⟨1, [], true, false⟩ =
      (.error (.typeError "Cannot define property, object is not extensible"),
       ⟨1, [], true, false⟩) ∧
      (JSError.typeError
          "Cannot define property, object is not extensible").isBindError =
        false := ⟨rfl, rfl⟩

/-- C7 amended: an eligibility (bind-phase) failure propagates out of the
getter as the dedicated `BindError`; every error state the delegator
produces reports the `bind` phase — `define` is never reported; an error
escaping the delegator (such as the define step's failure on a frozen
instance) is the raw host error, not the dedicated type, and the frozen
define failure surfaces from the getter as that raw `TypeError`. -/
theorem error_reporting_phase_and_type (s : InitialBindingState)
    (t : JSObject) (k : String) (c : Callable) (e : Option Bool)
    (i : JSObject) :
    (∀ msg op,
        (MethodBindingDelegator.process s).1 = .ok (.bindingError msg op) →
          op = BindPhase.bind) ∧
      (∀ e2, (MethodBindingDelegator.process s).1 = .error e2 →
          e2.isBindingError = false) ∧
      (¬k = "" → (i.id == t.id) = false → i.props.lookup k = none →
        t.ctorIsObject = true →
        ((Bind t k ⟨.callable c, e⟩).get i).1 =
          .error (.bindError "Cannot bind: method should not bind to prototype")) ∧
      (¬k = "" → (i.id == t.id) = false → i.props.lookup k = none →
        t.ctorIsObject = false → i.frozen = true →
        ((Bind t k ⟨.callable c, e⟩).get i).1 =
          .error (.typeError "Cannot define property, object is not extensible")) := by
  refine ⟨process_error_state_phase s, process_escaped_error_raw s, ?_, ?_⟩
  · intro hk hid hp hctor
    rw [Bind_get_eq, getter_reject t k _ i c hk rfl hid hp hctor]
  · intro hk hid hp hctor hfz
    rw [Bind_get_eq, getter_frozen t k _ i c hk rfl hid hp hctor hfz]

/-- C7 amended witness: the hypotheses discharged on concrete inputs — a
produced error state (ineligible target) reports `bind`, the escaped
frozen-define error is not a `BindingError`, an eligibility rejection
surfaces as `BindError`, and a frozen define failure surfaces as the raw
`TypeError`. -/
theorem error_reporting_phase_and_type_witness :
    BindPhase.bind = BindPhase.bind ∧
      (JSError.typeError
          "Cannot define property, object is not extensible").isBindingError =
        false ∧
      ((Bind ⟨0, [], false, true⟩ "m" ⟨.callable (.orig 7), some false⟩).get
          ⟨1, [], false, false⟩).1 =
        .error (.bindError "Cannot bind: method should not bind to prototype") ∧
      ((Bind ⟨0, [], false, false⟩ "m" ⟨.callable (.orig 7), some false⟩).get
          ⟨1, [], true, false⟩).1 =
        .error (.typeError "Cannot define property, object is not extensible") := by
  refine ⟨?_, ?_, ?_, ?_⟩
  · exact (error_reporting_phase_and_type
      ⟨⟨0, [], false, true⟩, "m", .orig 7, ⟨1, [], false, false⟩, false⟩
      ⟨0, [], false, true⟩ "m" (.orig 7) (some false)
      ⟨1, [], false, false⟩).1
      "Cannot bind: method should not bind to prototype" BindPhase.bind rfl
  · exact (error_reporting_phase_and_type
      ⟨⟨0, [], false, false⟩, "m", .orig 7, ⟨1, [], true, false⟩, false⟩
      ⟨0, [], false, false⟩ "m" (.orig 7) (some false)
      ⟨1, [], true, false⟩).2.1
      (.typeError "Cannot define property, object is not extensible") rfl
  · exact (error_reporting_phase_and_type
      ⟨⟨0, [], false, true⟩, "m", .orig 7, ⟨1, [], false, false⟩, false⟩
      ⟨0, [], false, true⟩ "m" (.orig 7) (some false)
      ⟨1, [], false, false⟩).2.2.1 (by decide) (by decide) rfl rfl
  · exact (error_reporting_phase_and_type
      ⟨⟨0, [], false, false⟩, "m", .orig 7, ⟨1, [], true, false⟩, false⟩
      ⟨0, [], false, false⟩ "m" (.orig 7) (some false)
      ⟨1, [], true, false⟩).2.2.2 (by decide) (by decide) rfl rfl rfl

/-- C8: a binding request is validated at construction — a missing
instance, a missing/empty method name, or a non-callable original value
each raise a `TypeError` synchronously; in particular a decorated
non-callable class field makes the accessor's construction path raise the
type error the moment the binding request is built. -/
theorem binding_request_validation :
    (∀ d : BindingRequestData, d.inst = none →
        InitialBindingState.construct d =
          .error (.typeError "Instance must be provided")) ∧
      (∀ (d : BindingRequestData) (i : JSObject), d.inst = some i →
        d.methodName = "" →
        InitialBindingState.construct d =
          .error (.typeError "Method name must be provided")) ∧
      (∀ (d : BindingRequestData) (i t : JSObject), d.inst = some i →
        d.target = some t → ¬d.methodName = "" → d.method.isCallable = false →
        InitialBindingState.construct d =
          .error (.typeError "Method must be a function")) ∧
      (∀ (t : JSObject) (k : String) (dv : JSValue) (e : Option Bool)
        (i : JSObject), ¬k = "" → dv.isCallable = false →
        (Bind t k ⟨dv, e⟩).get i =
          (.error (.typeError "Method must be a function"), i)) := by
  refine ⟨?_, ?_, ?_, ?_⟩
  · intro d h
    simp [InitialBindingState.construct, h]
  · intro d i hi hname
    simp [InitialBindingState.construct, hi, hname]
  · intro d i t hi ht hname hv
    cases hdv : d.method <;>
      simp_all [InitialBindingState.construct, JSValue.isCallable]
  · intro t k dv e i hk hv
    rw [Bind_get_eq]
    exact getter_badmethod t k _ i hk hv

/-- C8 witness: each validation failure exercised on concrete data — no
instance, empty method name, and a non-callable string field (both at
construction and through the getter). -/
theorem binding_request_validation_witness :
    InitialBindingState.construct
        ⟨some ⟨0, [], false, false⟩, "m", .callable (.orig 7), none, false⟩ =
      .error (.typeError "Instance must be provided") ∧
      InitialBindingState.construct
          ⟨some ⟨0, [], false, false⟩, "", .callable (.orig 7),
           some ⟨1, [], false, false⟩, false⟩ =
        .error (.typeError "Method name must be provided") ∧
      InitialBindingState.construct
          ⟨some ⟨0, [], false, false⟩, "m", .str "not a method",
           some ⟨1, [], false, false⟩, false⟩ =
        .error (.typeError "Method must be a function") ∧
      (Bind ⟨0, [], false, false⟩ "m" ⟨.str "not a method", some true⟩).get
          ⟨1, [], false, false⟩ =
        (.error (.typeError "Method must be a function"),
         ⟨1, [], false, false⟩) := by
  refine ⟨?_, ?_, ?_, ?_⟩
  · exact binding_request_validation.1 _ rfl
  · exact binding_request_validation.2.1 _ ⟨1, [], false, false⟩ rfl rfl
  · exact binding_request_validation.2.2.1 _ ⟨1, [], false, false⟩
      ⟨0, [], false, false⟩ rfl rfl (by decide) rfl
  · exact binding_request_validation.2.2.2 ⟨0, [], false, false⟩ "m"
      (.str "not a method") (some true) ⟨1, [], false, false⟩ (by decide) rfl

/-- C9: the eligibility guard rejects binding exactly when the target's
constructor is the generic base `Object` type — so binding is permitted
for every real class instance — and a rejection produces a binding
failure attributed to the `bind` phase. -/
theorem eligibility_guard_exact (s : InitialBindingState) :
    ((∃ msg, BindingError.assertCanBind s = .error (.bindingError msg)) ↔
        s.target.ctorIsObject = true) ∧
      (s.target.ctorIsObject = true →
        MethodBindingInvestigator.isPrototypeAccess s = false →
        MethodBindingInvestigator.hasExistingBinding s = false →
        (MethodBindingDelegator.process s).1 =
          .ok (.bindingError "Cannot bind: method should not bind to prototype"
                BindPhase.bind)) := by
  constructor
  · cases hc : s.target.ctorIsObject <;>
      simp [BindingError.assertCanBind,
        MethodBindingInvestigator.shouldBindToPrototype, hc]
  · intro hc hpa hex
    simp [MethodBindingDelegator.process, MethodBindingDelegator.tryProcess,
      hpa, hex, CreateMethodBindingWorker.bindToInstance,
      BindingError.assertCanBind,
      MethodBindingInvestigator.shouldBindToPrototype, hc,
      JSError.isBindingError, JSError.message,
      ErrorTransitionWorker.createErrorState]

/-- C9 witness: a target whose constructor is the base `Object` is
rejected and the rejection reports the `bind` phase; the guard's
rejection condition is exactly the constructor test. -/
theorem eligibility_guard_exact_witness :
    (∃ msg,
        BindingError.assertCanBind
            ⟨⟨0, [], false, true⟩, "m", .orig 7, ⟨1, [], false, false⟩, false⟩ =
          .error (.bindingError msg)) ∧
      (MethodBindingDelegator.process
            ⟨⟨0, [], false, true⟩, "m", .orig 7,
             ⟨1, [], false, false⟩, false⟩).1 =
        .ok (.bindingError "Cannot bind: method should not bind to prototype"
              BindPhase.bind) := by
  have h := eligibility_guard_exact
    ⟨⟨0, [], false, true⟩, "m", .orig 7, ⟨1, [], false, false⟩, false⟩
  exact ⟨h.1.mpr rfl, h.2 rfl rfl rfl⟩

end BindDecorator
